import Mathlib

set_option autoImplicit false

/-!
Verification of the iron-enum runtime core (tagged unions with pattern
matching, Result/Option adapters, and the Try/TryInto exception bridge).

The definitions below are a shallow embedding of the TypeScript source
(`mod.ts`): each Lean `def` transliterates the body of the corresponding
source function.  JavaScript values that the code inspects at runtime
(`undefined` sentinels, `null`, `instanceof Error`, `String(...)`
conversion) are modelled by the `JSValue` inductive; code that throws is
modelled with `Except JSValue`, the thrown JS value on the error side.
-/

namespace IronEnumModel

/-- Fragment of the JavaScript value universe that the runtime core
inspects: `undefined`, `null`, booleans, numbers (integral fragment),
strings, `Error` instances and `TypeError` instances (each carrying its
`message`).  Payloads and handler results range over this type. -/
inductive JSValue where
  | undefined
  | null
  | bool (b : Bool)
  | num (n : Int)
  | str (s : String)
  | errObj (msg : String)
  | typeError (msg : String)
deriving DecidableEq, Repr

/-- JavaScript `x instanceof Error` (a `TypeError` is an `Error`). -/
def JSValue.isError : JSValue → Bool
  | .errObj _ => true
  | .typeError _ => true
  | _ => false

/-- JavaScript nullish test: `x` is `null` or `undefined` (the values the
`??` operator coalesces away). -/
def JSValue.isNullish : JSValue → Bool
  | .undefined => true
  | .null => true
  | _ => false

/-- JavaScript `String(x)` conversion for the modelled fragment. -/
def jsString : JSValue → String
  | .undefined => "undefined"
  | .null => "null"
  | .bool true => "true"
  | .bool false => "false"
  | .num n => toString n
  | .str s => s
  | .errObj m => if m = "" then "Error" else "Error: " ++ m
  | .typeError m => if m = "" then "TypeError" else "TypeError: " ++ m

/-- JavaScript `x.message` property access (an `Error`-like value yields
its message string, anything else yields `undefined`). -/
def JSValue.message : JSValue → JSValue
  | .errObj m => .str m
  | .typeError m => .str m
  | _ => .undefined

/-- A constructed enum variant instance: the `{ tag, data }` pair produced
by `enumFactory`.  The source also stores a back-reference `instance` to
the owning factory and attaches the dispatch methods; the methods are
modelled as the standalone functions below (they are pure functions of
`(tag, data)` and the caller-supplied handlers), and the back-reference
plays no role in any operation verified here. -/
structure TaggedValue where
  tag : String
  data : JSValue
deriving DecidableEq, Repr

/-- Wire format `{ tag, data }` (`IronEnumWireFormat`). -/
structure Wire where
  tag : String
  data : JSValue
deriving DecidableEq, Repr

/-- Method `toJSON` of a variant instance: `() => ({ tag, data })`. -/
def toJSON (v : TaggedValue) : Wire :=
  { tag := v.tag, data := v.data }

/-- Source `enumFactory` (the instance builder): throws when the tag is
the reserved fallback key `_`, otherwise produces the `{ tag, data }`
instance.  (The type-only `_allVariants` argument and the factory
back-reference are omitted; they do not affect `tag`/`data` or any
method's behaviour.) -/
def enumFactory (tag : String) (data : JSValue) : Except JSValue TaggedValue :=
  if tag = "_" then
    .error (.errObj "'_' is reserved as a fallback key.")
  else
    .ok { tag := tag, data := data }

/-- A handler map passed to `match` / `matchAsync` / `matchExhaustive`,
with result type `ρ`.  In the source this is one JS object; since every
constructed tag differs from the reserved key `_` (enforced by
`enumFactory`), the object splits losslessly into its tag-keyed entries
(functions of `(payload, self)`) and the optional `_` fallback entry
(a function of `self` alone). -/
structure Handlers (ρ : Type) where
  entry : String → Option (JSValue → TaggedValue → ρ)
  fallback : Option (TaggedValue → ρ)

/-- Source `match`: look up `callbacks[tag]`; fall back to `callbacks._`;
throw when neither is present; invoke the specific handler with
`(data, self)` and the fallback with `(self)`. -/
def matchSync {ρ : Type} (v : TaggedValue) (cbs : Handlers ρ) : Except JSValue ρ :=
  match cbs.entry v.tag with
  | some cb => .ok (cb v.data v)
  | none =>
    match cbs.fallback with
    | some fb => .ok (fb v)
    | none => .error (.errObj ("No handler for '" ++ v.tag ++ "' and no '_' fallback"))

/-- Source `matchAsync`: identical body to `match`; the promise returned
by the handler is modelled by its resolved value, and a throw by the
rejected promise. -/
def matchAsync {ρ : Type} (v : TaggedValue) (cbs : Handlers ρ) : Except JSValue ρ :=
  match cbs.entry v.tag with
  | some cb => .ok (cb v.data v)
  | none =>
    match cbs.fallback with
    | some fb => .ok (fb v)
    | none => .error (.errObj ("No handler for '" ++ v.tag ++ "' and no '_' fallback"))

/-- Source `matchExhaustive`: `const cb = callbacks[tag]; return cb(data, self)`.
No check is performed: when no handler is registered for the tag the code
calls `undefined`, which raises a host `TypeError`.  The `_` slot of the
map is never consulted. -/
def matchExhaustive {ρ : Type} (v : TaggedValue) (cbs : Handlers ρ) : Except JSValue ρ :=
  match cbs.entry v.tag with
  | some cb => .ok (cb v.data v)
  | none => .error (.typeError "cb is not a function")

/-- Source `_if` (method `if`): on a tag hit run `success(data, self)`
mapping an `undefined` result to `true` (or return `true` with no
handler); on a miss run `failure(self)` mapping `undefined` to `false`
(or return `false`). -/
def guardIf (v : TaggedValue) (key : String)
    (success : Option (JSValue → TaggedValue → JSValue))
    (failure : Option (TaggedValue → JSValue)) : JSValue :=
  if v.tag = key then
    match success with
    | some s =>
      let r := s v.data v
      if r = .undefined then .bool true else r
    | none => .bool true
  else
    match failure with
    | some f =>
      let r := f v
      if r = .undefined then .bool false else r
    | none => .bool false

/-- Source `_ifNot` (method `ifNot`): mirror of `if` — on a tag miss run
`success(self)` mapping `undefined` to `true`; on a hit run
`failure(data, self)` mapping `undefined` to `false`. -/
def guardIfNot (v : TaggedValue) (key : String)
    (success : Option (TaggedValue → JSValue))
    (failure : Option (JSValue → TaggedValue → JSValue)) : JSValue :=
  if v.tag ≠ key then
    match success with
    | some s =>
      let r := s v
      if r = .undefined then .bool true else r
    | none => .bool true
  else
    match failure with
    | some f =>
      let r := f v.data v
      if r = .undefined then .bool false else r
    | none => .bool false

/-- Runtime state of a factory produced by `IronEnum(args?)`: the
optional `args.keys` list.  `keys = none` (or an empty list, see
`keysNonempty`) selects the dynamic Proxy-based factory; a non-empty list
selects the pre-bound fast path. -/
structure IronEnumFactory where
  keys : Option (List String)
deriving DecidableEq, Repr

/-- Truthiness of `keys?.length` in the source: `false` when `keys` is
absent or the empty array. -/
def keysNonempty : Option (List String) → Bool
  | some ks => ks.length != 0
  | none => false

/-- Property names the dynamic Proxy intercepts instead of treating as
variant constructors (source constant `BUILTINS`). -/
def BUILTINS : List String :=
  ["toString", "valueOf", "inspect", "constructor"]

/-- Outcome of evaluating `factory[tag](payload)`. -/
inductive ConstructOutcome where
  | variant (v : TaggedValue)
  | thrown (e : JSValue)
  | builtinResult
deriving DecidableEq, Repr

/-- Lift the `Except` of `enumFactory` into a `ConstructOutcome`. -/
def outcomeOf : Except JSValue TaggedValue → ConstructOutcome
  | .ok v => .variant v
  | .error e => .thrown e

/-- Evaluation of `factory[tag](payload)` on a factory built by
`IronEnum`.  Pre-bound path (`keys?.length` truthy): the factory object
is `{ _ }` with one constructor assigned per listed key, so a listed tag
runs `enumFactory`, the tag `_` finds the non-callable utilities object,
and any other tag finds `undefined` — both of the latter raise a
`TypeError` when called.  Dynamic path: the Proxy `get` returns the
utilities object for `_`, a bound `Object.prototype` member for the
`BUILTINS` names (calling it yields a plain value, not a variant), and
otherwise a constructor running `enumFactory`. -/
def construct (F : IronEnumFactory) (tag : String) (data : JSValue) : ConstructOutcome :=
  if keysNonempty F.keys then
    let ks := F.keys.getD []
    if ks.contains tag then
      outcomeOf (enumFactory tag data)
    else if tag = "_" then
      .thrown (.typeError "result._ is not a function")
    else
      .thrown (.typeError "result[tag] is not a function")
  else
    if tag = "_" then
      .thrown (.typeError "result._ is not a function")
    else if BUILTINS.contains tag then
      .builtinResult
    else
      outcomeOf (enumFactory tag data)

/-- Projection of the `TaggedValue` out of a construction outcome, when
one was produced. -/
def constructedVariant : ConstructOutcome → Option TaggedValue
  | .variant v => some v
  | _ => none

/-- Source `parse` (also exposed as `fromJSON`): when the factory was
created with a non-empty `keys` list and the wire tag is not a member,
throw `Unexpected variant`; otherwise rebuild the instance through
`enumFactory`. -/
def parse (F : IronEnumFactory) (w : Wire) : Except JSValue TaggedValue :=
  if keysNonempty F.keys && !((F.keys.getD []).contains w.tag) then
    .error (.errObj ("Unexpected variant '" ++ w.tag ++ "'"))
  else
    enumFactory w.tag w.data

/-- Result value `Ok(value)` / `Err(error)`: the payload pair carried by
the two-variant `{ Ok, Err }` enum underlying `ResultInternal`.  The
per-constructor methods of `OkCtor` / `ErrCtor` are the functions below,
each matching on the constructor exactly as the source defines one body
per constructor. -/
inductive RResult (α ε : Type) where
  | Ok (v : α)
  | Err (e : ε)
deriving DecidableEq, Repr

/-- Option value `Some(value)` / `None()` from `OptionInternal` (the
`None` payload is `undefined`, carried by the constructor itself). -/
inductive ROption (α : Type) where
  | Some (v : α)
  | None
deriving DecidableEq, Repr

/-- Method `unwrap` of `OkCtor` / `ErrCtor`: `Ok` returns the value;
`Err` throws the error itself when it is an `Error` instance, else a new
`Error` with message `String(error ?? "Err")`. -/
def RResult.unwrap {α : Type} : RResult α JSValue → Except JSValue α
  | .Ok v => .ok v
  | .Err e =>
    .error (if e.isError then e
            else .errObj (jsString (if e.isNullish then .str "Err" else e)))

/-- Method `andThen` of `OkCtor` / `ErrCtor`: `Ok` applies `f` to the
value; `Err` rebuilds `Err(error)` without mentioning `f`. -/
def RResult.andThen {α β ε : Type} : RResult α ε → (α → RResult β ε) → RResult β ε
  | .Ok v, f => f v
  | .Err e, _ => .Err e

/-- Method `ok` of `OkCtor` / `ErrCtor`: `Ok(v)` becomes `Some(v)`,
`Err(_)` becomes `None()`. -/
def RResult.ok {α ε : Type} : RResult α ε → ROption α
  | .Ok v => .Some v
  | .Err _ => .None

/-- Method `isOk` of `OkCtor` / `ErrCtor`. -/
def RResult.isOk {α ε : Type} : RResult α ε → Bool
  | .Ok _ => true
  | .Err _ => false

/-- Method `isErr` of `OkCtor` / `ErrCtor`. -/
def RResult.isErr {α ε : Type} : RResult α ε → Bool
  | .Ok _ => false
  | .Err _ => true

/-- Method `unwrap` of `SomeCtor` / `NoneCtor`: `Some` returns the
value; `None` throws `Error("Called unwrap() on Option.None")`. -/
def ROption.unwrap {α : Type} : ROption α → Except JSValue α
  | .Some v => .ok v
  | .None => .error (.errObj "Called unwrap() on Option.None")

/-- Method `andThen` of `SomeCtor` / `NoneCtor`: `Some` applies `f`;
`None` returns `Option().None()` without mentioning `f`. -/
def ROption.andThen {α β : Type} : ROption α → (α → ROption β) → ROption β
  | .Some v, f => f v
  | .None, _ => .None

/-- Method `ok_or` of `SomeCtor` / `NoneCtor`: `Some(v)` becomes
`Ok(v)` ignoring the supplied error; `None` becomes `Err(err)`. -/
def ROption.ok_or {α ε : Type} : ROption α → ε → RResult α ε
  | .Some v, _ => .Ok v
  | .None, err => .Err err

/-- Method `ok_or_else` of `SomeCtor` / `NoneCtor`: `Some(v)` becomes
`Ok(v)` without calling the error thunk; `None` becomes `Err(errFn())`. -/
def ROption.ok_or_else {α ε : Type} : ROption α → (Unit → ε) → RResult α ε
  | .Some v, _ => .Ok v
  | .None, errFn => .Err (errFn ())

/-- Source `Try.sync`: `try { return R.Ok(cb()) } catch (e) { return R.Err(e) }`.
The callback thunk is modelled by its outcome: a returned value or a
thrown JS value. -/
def trySync {α : Type} (cb : Except JSValue α) : RResult α JSValue :=
  match cb with
  | .ok v => .Ok v
  | .error e => .Err e

/-- Source `Try.sync` with the callback's own side effect made explicit:
the thunk is a state transformer (for instance an invocation counter),
evaluated exactly once by the single `cb()` call in the source, and its
outcome folded into `Ok` / `Err` as in `trySync`. -/
def trySyncT {σ α : Type} (cb : σ → σ × Except JSValue α) (s : σ) :
    σ × RResult α JSValue :=
  match cb s with
  | (s', .ok v) => (s', .Ok v)
  | (s', .error e) => (s', .Err e)

/-- Source `TryInto.sync`: `(...args) => Try.sync(() => cb(...args))`.
The wrapped function's parameter list is modelled by the single argument
type `γ`. -/
def tryIntoSync {γ α : Type} (cb : γ → Except JSValue α) : γ → RResult α JSValue :=
  fun a => trySync (cb a)

/-- C1: for every TaggedValue `v` and handler map, `match` and
`matchAsync` dispatch per the spec: a tag entry is invoked with
`(payload, self)` and its (resolved) result is the dispatch result;
otherwise a `_` entry is invoked with `(self)`; otherwise the call throws
an error naming the unhandled tag. -/
theorem match_dispatch {ρ : Type} (v : TaggedValue) (cbs : Handlers ρ)
    (_hv : v.tag ≠ "_") :
    (∀ cb, cbs.entry v.tag = some cb →
      matchSync v cbs = .ok (cb v.data v) ∧ matchAsync v cbs = .ok (cb v.data v)) ∧
    (∀ fb, cbs.entry v.tag = none → cbs.fallback = some fb →
      matchSync v cbs = .ok (fb v) ∧ matchAsync v cbs = .ok (fb v)) ∧
    (cbs.entry v.tag = none → cbs.fallback = none →
      matchSync v cbs =
        .error (.errObj ("No handler for '" ++ v.tag ++ "' and no '_' fallback")) ∧
      matchAsync v cbs =
        .error (.errObj ("No handler for '" ++ v.tag ++ "' and no '_' fallback"))) := by
  refine ⟨?_, ?_, ?_⟩ <;> intros <;> simp_all [matchSync, matchAsync]

/-- Witness for `match_dispatch`: the three dispatch branches at concrete
values and handler maps. -/
theorem match_dispatch_witness :
    (matchSync ⟨"A", .num 1⟩
      ⟨fun t => if t = "A" then some (fun d _ => d) else none, none⟩ = .ok (.num 1)) ∧
    (matchAsync ⟨"B", .num 2⟩
      ((⟨fun _ => none, some (fun s => JSValue.str s.tag)⟩ : Handlers JSValue)) =
      .ok (.str "B")) ∧
    (matchSync ⟨"C", .num 3⟩ ((⟨fun _ => none, none⟩ : Handlers JSValue)) =
      .error (.errObj "No handler for 'C' and no '_' fallback")) :=
  ⟨((match_dispatch (⟨"A", JSValue.num 1⟩ : TaggedValue)
      ⟨fun t => if t = "A" then some (fun d _ => d) else none, none⟩
      (by decide)).1 (fun d _ => d) (by simp)).1,
   ((match_dispatch (⟨"B", JSValue.num 2⟩ : TaggedValue)
      ((⟨fun _ => none, some (fun s => JSValue.str s.tag)⟩ : Handlers JSValue))
      (by decide)).2.1 (fun s => JSValue.str s.tag) rfl rfl).2,
   ((match_dispatch (⟨"C", JSValue.num 3⟩ : TaggedValue)
      ((⟨fun _ => none, none⟩ : Handlers JSValue)) (by decide)).2.2 rfl rfl).1⟩

/-- C4: `matchExhaustive` never consults the `_` fallback slot: its
result is unchanged when the fallback is erased, and whenever a handler
is registered for `v.tag` that handler alone is invoked, with
`(payload, self)`. -/
theorem matchExhaustive_ignores_fallback {ρ : Type} (v : TaggedValue)
    (cbs : Handlers ρ) (_hv : v.tag ≠ "_") :
    matchExhaustive v cbs = matchExhaustive v ⟨cbs.entry, none⟩ ∧
    (∀ cb, cbs.entry v.tag = some cb → matchExhaustive v cbs = .ok (cb v.data v)) := by
  constructor
  · simp [matchExhaustive]
  · intro cb h
    simp [matchExhaustive, h]

/-- Witness for `matchExhaustive_ignores_fallback`: a map that does carry
a `_` fallback, which is nevertheless ignored in favour of the tag
handler. -/
theorem matchExhaustive_ignores_fallback_witness :
    matchExhaustive ⟨"A", .num 5⟩
      ⟨fun t => if t = "A" then some (fun d _ => d) else none,
       some (fun _ => .str "fallback ran")⟩ = .ok (.num 5) :=
  (matchExhaustive_ignores_fallback (⟨"A", JSValue.num 5⟩ : TaggedValue)
    ⟨fun t => if t = "A" then some (fun d _ => d) else none,
     some (fun _ => .str "fallback ran")⟩
    (by decide)).2 (fun d _ => d) (by simp)

/-- C10: `matchExhaustive` performs no runtime exhaustiveness check —
with no handler registered for the active tag it calls an undefined
value, raising a host `TypeError` (even when a `_` fallback is present),
which is a different failure from the missing-handler `Error` that
`match` raises on the same map. -/
theorem matchExhaustive_no_runtime_check {ρ : Type} (v : TaggedValue)
    (cbs : Handlers ρ) (_hv : v.tag ≠ "_") (h : cbs.entry v.tag = none) :
    matchExhaustive v cbs = .error (.typeError "cb is not a function") ∧
    (cbs.fallback = none →
      matchSync v cbs =
        .error (.errObj ("No handler for '" ++ v.tag ++ "' and no '_' fallback"))) ∧
    JSValue.typeError "cb is not a function" ≠
      JSValue.errObj ("No handler for '" ++ v.tag ++ "' and no '_' fallback") := by
  refine ⟨?_, ?_, ?_⟩
  · simp [matchExhaustive, h]
  · intro hf
    simp [matchSync, h, hf]
  · intro hcontra
    cases hcontra

/-- Witness for `matchExhaustive_no_runtime_check`: an empty handler map
with a `_` fallback still produces the `TypeError`, and the same map
without the fallback makes `match` throw the missing-handler error. -/
theorem matchExhaustive_no_runtime_check_witness :
    matchExhaustive ⟨"Ready", .null⟩
      ((⟨fun _ => none, some (fun _ => .str "fb")⟩ : Handlers JSValue)) =
      .error (.typeError "cb is not a function") ∧
    matchSync ⟨"Ready", .null⟩ ((⟨fun _ => none, none⟩ : Handlers JSValue)) =
      .error (.errObj "No handler for 'Ready' and no '_' fallback") :=
  ⟨(matchExhaustive_no_runtime_check ⟨"Ready", .null⟩ _ (by decide) rfl).1,
   (matchExhaustive_no_runtime_check ⟨"Ready", .null⟩
      ((⟨fun _ => none, none⟩ : Handlers JSValue)) (by decide) rfl).2.1 rfl⟩

/-- C5: full input/output behaviour of the `if` and `ifNot` guards: with
no handlers they are boolean tag predicates; a provided handler's result
is returned unless it is `undefined`, which maps to `true` on the
"success" side and `false` on the "failure" side; `ifNot` mirrors `if`
(success on tag mismatch with `self`, failure on match with
`(payload, self)`). -/
theorem guard_if_ifNot_semantics :
    (∀ (v : TaggedValue) (k : String),
      guardIf v k none none = .bool (decide (v.tag = k))) ∧
    (∀ (v : TaggedValue) (k : String) fo, v.tag = k →
      guardIf v k none fo = .bool true) ∧
    (∀ (v : TaggedValue) (k : String) s fo, v.tag = k → s v.data v ≠ .undefined →
      guardIf v k (some s) fo = s v.data v) ∧
    (∀ (v : TaggedValue) (k : String) s fo, v.tag = k → s v.data v = .undefined →
      guardIf v k (some s) fo = .bool true) ∧
    (∀ (v : TaggedValue) (k : String) so, v.tag ≠ k →
      guardIf v k so none = .bool false) ∧
    (∀ (v : TaggedValue) (k : String) so f, v.tag ≠ k → f v ≠ .undefined →
      guardIf v k so (some f) = f v) ∧
    (∀ (v : TaggedValue) (k : String) so f, v.tag ≠ k → f v = .undefined →
      guardIf v k so (some f) = .bool false) ∧
    (∀ (v : TaggedValue) (k : String),
      guardIfNot v k none none = .bool (decide (v.tag ≠ k))) ∧
    (∀ (v : TaggedValue) (k : String) s fo, v.tag ≠ k → s v ≠ .undefined →
      guardIfNot v k (some s) fo = s v) ∧
    (∀ (v : TaggedValue) (k : String) s fo, v.tag ≠ k → s v = .undefined →
      guardIfNot v k (some s) fo = .bool true) ∧
    (∀ (v : TaggedValue) (k : String) so f, v.tag = k → f v.data v ≠ .undefined →
      guardIfNot v k so (some f) = f v.data v) ∧
    (∀ (v : TaggedValue) (k : String) so f, v.tag = k → f v.data v = .undefined →
      guardIfNot v k so (some f) = .bool false) := by
  refine ⟨fun v k => ?_, fun v k fo h => ?_, fun v k s fo h hr => ?_,
    fun v k s fo h hr => ?_, fun v k so h => ?_, fun v k so f h hr => ?_,
    fun v k so f h hr => ?_, fun v k => ?_, fun v k s fo h hr => ?_,
    fun v k s fo h hr => ?_, fun v k so f h hr => ?_, fun v k so f h hr => ?_⟩ <;>
    by_cases hk : v.tag = k <;> simp_all [guardIf, guardIfNot]

/-- Witness for `guard_if_ifNot_semantics`: concrete guard calls
exercising handler results, the `undefined`-to-boolean rule, and the
mirrored `ifNot` arms. -/
theorem guard_if_ifNot_semantics_witness :
    guardIf ⟨"A", .num 1⟩ "A" (some (fun d _ => d)) none = .num 1 ∧
    guardIf ⟨"A", .num 1⟩ "A" (some (fun _ _ => .undefined)) none = .bool true ∧
    guardIf ⟨"A", .num 1⟩ "B" none (some (fun s => .str s.tag)) = .str "A" ∧
    guardIfNot ⟨"A", .num 1⟩ "B" (some (fun s => JSValue.str s.tag)) none = .str "A" ∧
    guardIfNot ⟨"A", .num 1⟩ "A" none (some (fun _ _ => .undefined)) = .bool false :=
  ⟨guard_if_ifNot_semantics.2.2.1 (⟨"A", JSValue.num 1⟩ : TaggedValue) "A"
     (fun d _ => d) none rfl (by decide),
   guard_if_ifNot_semantics.2.2.2.1 (⟨"A", JSValue.num 1⟩ : TaggedValue) "A"
     (fun _ _ => JSValue.undefined) none rfl rfl,
   guard_if_ifNot_semantics.2.2.2.2.2.1 (⟨"A", JSValue.num 1⟩ : TaggedValue) "B"
     none (fun s => JSValue.str s.tag) (by decide) (by decide),
   guard_if_ifNot_semantics.2.2.2.2.2.2.2.2.1 (⟨"A", JSValue.num 1⟩ : TaggedValue) "B"
     (fun s => JSValue.str s.tag) none (by decide) (by decide),
   guard_if_ifNot_semantics.2.2.2.2.2.2.2.2.2.2.2 (⟨"A", JSValue.num 1⟩ : TaggedValue) "A"
     none (fun _ _ => JSValue.undefined) rfl rfl⟩

/-- C2 counterexample: the claim quantifies over every factory mode and
every declared tag, but a dynamic (Proxy-based) factory intercepts the
property names in `BUILTINS`.  A schema may declare a variant named
`toString` (the `VariantsRecord` type only reserves `_`), yet
`factory.toString(payload)` on a dynamic factory evaluates the bound
`Object.prototype.toString`, producing a plain string rather than a
`TaggedValue` — so `construct("toString", payload)` yields no variant and
`.toJSON()` on its result is not even defined, breaking the claimed
round trip at this input. -/
theorem construct_dynamic_toString_counterexample :
    construct ⟨none⟩ "toString" (.num 1) = .builtinResult ∧
    constructedVariant (construct ⟨none⟩ "toString" (.num 1)) = none := by
  constructor <;> rfl

/-- C2 (amended): for every factory and every tag other than the
reserved `_` — where, in pre-bound mode, the tag is one of the supplied
keys, and in dynamic mode it is not one of the Proxy-intercepted builtin
names — construction yields the `{ tag, data }` instance, `toJSON` is the
pure `{ tag, data }` projection, and `parse` of that wire form returns a
TaggedValue with the same tag and structurally equal payload. -/
theorem parse_toJSON_roundTrip (F : IronEnumFactory) (tag : String) (d : JSValue)
    (h1 : tag ≠ "_")
    (h2 : keysNonempty F.keys = true → (F.keys.getD []).contains tag = true)
    (h3 : keysNonempty F.keys = false → BUILTINS.contains tag = false) :
    construct F tag d = .variant ⟨tag, d⟩ ∧
    toJSON ⟨tag, d⟩ = (⟨tag, d⟩ : Wire) ∧
    parse F (toJSON ⟨tag, d⟩) = .ok ⟨tag, d⟩ := by
  by_cases hk : keysNonempty F.keys = true
  · have h2' : tag ∈ F.keys.getD [] := by simpa using h2 hk
    refine ⟨?_, rfl, ?_⟩
    · simp [construct, hk, h2', outcomeOf, enumFactory, h1]
    · simp [parse, toJSON, hk, h2', enumFactory, h1]
  · have hk' : keysNonempty F.keys = false := by simpa using hk
    have h3' : tag ∉ BUILTINS := by simpa using h3 hk'
    refine ⟨?_, rfl, ?_⟩
    · simp [construct, hk', h1, h3', outcomeOf, enumFactory]
    · simp [parse, toJSON, hk', enumFactory, h1]

/-- Witness for `parse_toJSON_roundTrip`: a pre-bound factory with keys
`["Loading", "Ready"]` and a dynamic factory, each round-tripping a
constructed value through `toJSON` and `parse`. -/
theorem parse_toJSON_roundTrip_witness :
    (construct ⟨some ["Loading", "Ready"]⟩ "Ready" (.num 7) =
      .variant ⟨"Ready", .num 7⟩ ∧
     toJSON ⟨"Ready", .num 7⟩ = (⟨"Ready", .num 7⟩ : Wire) ∧
     parse ⟨some ["Loading", "Ready"]⟩ (toJSON ⟨"Ready", .num 7⟩) =
      .ok ⟨"Ready", .num 7⟩) ∧
    parse ⟨none⟩ (toJSON ⟨"Ready", .num 7⟩) = .ok ⟨"Ready", .num 7⟩ :=
  ⟨parse_toJSON_roundTrip ⟨some ["Loading", "Ready"]⟩ "Ready" (.num 7)
     (by decide) (fun _ => by decide) (fun hc => by simp [keysNonempty] at hc),
   (parse_toJSON_roundTrip ⟨none⟩ "Ready" (.num 7)
     (by decide) (fun hc => by simp [keysNonempty] at hc) (fun _ => by decide)).2.2⟩

/-- C3 counterexample: a factory created without an explicit key list
does not accept every string tag — `parse` of the wire tag `_` reaches
`enumFactory`, which throws the reserved-key error instead of returning
a TaggedValue. -/
theorem parse_open_rejects_reserved_tag :
    parse ⟨none⟩ ⟨"_", .null⟩ =
      .error (.errObj "'_' is reserved as a fallback key.") := by
  rfl

/-- C3 (amended): `parse` validates membership only in pre-bound mode —
with an explicit non-empty key list a tag outside the list fails with the
unknown-variant error; without an explicit key list any string tag other
than the reserved `_` is accepted and returned in a TaggedValue carrying
it. -/
theorem parse_membership_validation :
    (∀ (ks : List String) (tag : String) (d : JSValue), ks ≠ [] →
      ks.contains tag = false →
      parse ⟨some ks⟩ ⟨tag, d⟩ =
        .error (.errObj ("Unexpected variant '" ++ tag ++ "'"))) ∧
    (∀ (tag : String) (d : JSValue), tag ≠ "_" →
      parse ⟨none⟩ ⟨tag, d⟩ = .ok ⟨tag, d⟩) := by
  constructor
  · intro ks tag d hks hmem
    have hk : keysNonempty (some ks) = true := by
      cases ks with
      | nil => exact absurd rfl hks
      | cons a l => simp [keysNonempty]
    have hmem' : tag ∉ ks := by simpa using hmem
    simp [parse, hk, hmem']
  · intro tag d htag
    simp [parse, keysNonempty, enumFactory, htag]

/-- Witness for `parse_membership_validation`: a pre-bound factory
rejects a foreign tag with the unknown-variant error, while an open
factory accepts a tag that appears in no schema at all. -/
theorem parse_membership_validation_witness :
    parse ⟨some ["A", "B"]⟩ ⟨"C", .null⟩ =
      .error (.errObj "Unexpected variant 'C'") ∧
    parse ⟨none⟩ ⟨"Anything", .num 3⟩ = .ok ⟨"Anything", .num 3⟩ :=
  ⟨parse_membership_validation.1 ["A", "B"] "C" .null (by decide) (by decide),
   parse_membership_validation.2 "Anything" (.num 3) (by decide)⟩

/-- C6 counterexample: `Err(null).unwrap()` throws an `Error` whose
message is `"Err"` (from `String(error ?? "Err")`), not the string form
of `null`, which is `"null"` — so the claim that the generic error
carries the string form of the error value fails at `e = null`. -/
theorem unwrap_null_message_counterexample :
    (RResult.Err JSValue.null : RResult Int JSValue).unwrap =
      .error (.errObj "Err") ∧
    jsString JSValue.null = "null" ∧
    "Err" ≠ "null" := by
  refine ⟨rfl, rfl, by decide⟩

/-- C6 (amended): `unwrap` on `Ok(v)` / `Some(v)` returns `v`; on
`Err(e)` it throws `e` itself when `e` is an `Error` instance, a generic
error with message `"Err"` when `e` is null or undefined, and otherwise a
generic error whose message is the string form of `e`; on `None()` it
throws the "called unwrap on empty" error.  `Try.sync` of a function
throwing `Error("boom")` yields an `Err` whose payload has message
`"boom"` and whose `unwrap` rethrows that same error object. -/
theorem unwrap_semantics :
    (∀ (α : Type) (v : α), (RResult.Ok v : RResult α JSValue).unwrap = .ok v) ∧
    (∀ (α : Type) (e : JSValue), e.isError = true →
      (RResult.Err e : RResult α JSValue).unwrap = .error e) ∧
    (∀ (α : Type) (e : JSValue), e.isError = false → e.isNullish = false →
      (RResult.Err e : RResult α JSValue).unwrap =
        .error (.errObj (jsString e))) ∧
    (∀ (α : Type) (e : JSValue), e.isNullish = true →
      (RResult.Err e : RResult α JSValue).unwrap = .error (.errObj "Err")) ∧
    (∀ (α : Type) (v : α), (ROption.Some v).unwrap = .ok v) ∧
    (∀ (α : Type), (ROption.None : ROption α).unwrap =
      .error (.errObj "Called unwrap() on Option.None")) ∧
    (trySync (.error (.errObj "boom") : Except JSValue JSValue) =
      .Err (.errObj "boom") ∧
     (JSValue.errObj "boom").message = .str "boom" ∧
     (RResult.Err (.errObj "boom") : RResult JSValue JSValue).unwrap =
      .error (.errObj "boom")) := by
  refine ⟨fun α v => rfl, fun α e he => ?_, fun α e he hn => ?_,
    fun α e hn => ?_, fun α v => rfl, fun α => rfl, rfl, rfl, rfl⟩
  · simp [RResult.unwrap, he]
  · simp [RResult.unwrap, he, hn]
  · cases e <;> simp_all [RResult.unwrap, JSValue.isNullish, JSValue.isError, jsString]

/-- Witness for `unwrap_semantics`: concrete unwraps of each flavour —
an `Error`-object payload rethrown as itself, a string payload wrapped
with its string form, and an undefined payload wrapped with message
`"Err"`. -/
theorem unwrap_semantics_witness :
    (RResult.Err (JSValue.errObj "boom") : RResult Int JSValue).unwrap =
      .error (.errObj "boom") ∧
    (RResult.Err (JSValue.str "oops") : RResult Int JSValue).unwrap =
      .error (.errObj "oops") ∧
    (RResult.Err JSValue.undefined : RResult Int JSValue).unwrap =
      .error (.errObj "Err") :=
  ⟨unwrap_semantics.2.1 Int (JSValue.errObj "boom") rfl,
   by
    have h := unwrap_semantics.2.2.1 Int (JSValue.str "oops") rfl rfl
    simpa [jsString] using h,
   unwrap_semantics.2.2.2.1 Int JSValue.undefined rfl⟩

/-- C7: `Try.sync` evaluates the callback exactly once (the threaded
invocation counter advances by exactly the callback's own step), wraps a
normal return in `Ok` and a thrown value unchanged in `Err`, never
rethrowing; and `TryInto.sync` returns a function whose result on any
argument equals `Try.sync` applied to the wrapped function at that
argument. -/
theorem trySync_tryInto_semantics :
    (∀ (α : Type) (g : Except JSValue α) (n : Nat),
      trySyncT (fun m => (m + 1, g)) n = (n + 1, trySync g)) ∧
    (∀ (α : Type) (v : α), trySync (.ok v) = (.Ok v : RResult α JSValue)) ∧
    (∀ (α : Type) (e : JSValue),
      trySync (.error e : Except JSValue α) = .Err e) ∧
    (∀ (γ α : Type) (cb : γ → Except JSValue α) (a : γ),
      tryIntoSync cb a = trySync (cb a)) := by
  refine ⟨fun α g n => ?_, fun α v => rfl, fun α e => rfl, fun γ α cb a => rfl⟩
  cases g <;> rfl

/-- C8: `andThen` is monadic bind on both adapters: `Ok(x).andThen(f)`
and `Some(x).andThen(f)` equal `f(x)`, while `Err(e).andThen(f)` equals
`Err(e)` (same tag, same carried error) and `None().andThen(f)` equals
`None()`, for every `f` — the failure/empty results do not depend on `f`
at all, which is the shallow rendering of "f is never invoked". -/
theorem andThen_bind_laws :
    (∀ (α β ε : Type) (x : α) (f : α → RResult β ε),
      (RResult.Ok x : RResult α ε).andThen f = f x) ∧
    (∀ (α β ε : Type) (e : ε) (f : α → RResult β ε),
      (RResult.Err e : RResult α ε).andThen f = .Err e) ∧
    (∀ (α β : Type) (x : α) (f : α → ROption β),
      (ROption.Some x).andThen f = f x) ∧
    (∀ (α β : Type) (f : α → ROption β),
      (ROption.None : ROption α).andThen f = (.None : ROption β)) :=
  ⟨fun _ _ _ _ _ => rfl, fun _ _ _ _ _ => rfl, fun _ _ _ _ => rfl,
   fun _ _ _ => rfl⟩

/-- C9: the Result/Option conversions: `Ok(v).ok() = Some(v)`,
`Err(e).ok() = None()`; `Some(v).ok_or(err)` and `ok_or_else(fn)` equal
`Ok(v)` for every supplied error and thunk (the thunk result is
irrelevant, matching its non-invocation), while `None().ok_or(err)`
equals `Err(err)` and `None().ok_or_else(fn)` equals `Err(fn())`. -/
theorem result_option_conversion :
    (∀ (α ε : Type) (v : α), (RResult.Ok v : RResult α ε).ok = ROption.Some v) ∧
    (∀ (α ε : Type) (e : ε),
      (RResult.Err e : RResult α ε).ok = (.None : ROption α)) ∧
    (∀ (α ε : Type) (v : α) (err : ε),
      (ROption.Some v).ok_or err = (RResult.Ok v : RResult α ε)) ∧
    (∀ (α ε : Type) (v : α) (f : Unit → ε),
      (ROption.Some v).ok_or_else f = (RResult.Ok v : RResult α ε)) ∧
    (∀ (α ε : Type) (err : ε),
      (ROption.None : ROption α).ok_or err = .Err err) ∧
    (∀ (α ε : Type) (f : Unit → ε),
      (ROption.None : ROption α).ok_or_else f = .Err (f ())) :=
  ⟨fun _ _ _ => rfl, fun _ _ _ => rfl, fun _ _ _ _ => rfl,
   fun _ _ _ _ => rfl, fun _ _ _ => rfl, fun _ _ _ => rfl⟩

end IronEnumModel
